import Mathlib

/-!
Verification development for the chinese-worker client core:
the SSE stream transport (`cw-cli/chinese_worker/api/sse_client.py`),
the stream bridge (`cw-cli/chinese_worker/tui/handlers/stream.py`),
the tool executor and approval handshake
(`cw-cli/chinese_worker/tui/handlers/tools.py`,
`cw-cli/chinese_worker/tui/screens/chat.py`) and the CLI tool loop
(`cli/chinese_worker/cli.py`).

The Python code is embedded shallowly: each stateful loop becomes a pure
function threading an explicit state record, network and JSON decoding are
parameters (`decode`, `submitOutcome`, `execTool`), and console / widget
side effects are recorded in explicit logs.
-/

namespace ChineseWorker

/-! ## Stream transport: `SSEClient.events` (sse_client.py lines 36-96)

The Python generator reads lines from the HTTP response and dispatches on
each line: comment lines (leading `:`) are skipped, a blank line ends the
current record (possibly yielding an event and possibly terminating the
stream), `event:` lines set the pending event type, `data:` lines append
to the data buffer.  JSON decoding (`json.loads`) is abstracted as a
parameter `decode : String → Option J`: `none` models a
`json.JSONDecodeError`. -/

/-- `s.startswith(p)` on the underlying character sequence (implemented
structurally so that concrete instances evaluate in the kernel). -/
def strStartsWith (s p : String) : Bool :=
  p.data.isPrefixOf s.data

/-- `s[n:]` — drop the first `n` characters. -/
def strDrop (s : String) (n : Nat) : String :=
  ⟨s.data.drop n⟩

/-- `s[:n]` — take the first `n` characters. -/
def strTake (s : String) (n : Nat) : String :=
  ⟨s.data.take n⟩

/-- `len(s)` in characters. -/
def strLen (s : String) : Nat :=
  s.data.length

/-- Python `str.strip()`: remove leading and trailing whitespace. -/
def pyStrip (s : String) : String :=
  ⟨((s.data.dropWhile Char.isWhitespace).reverse.dropWhile Char.isWhitespace).reverse⟩

/-- Substring test (`needle in haystack` in Python): some suffix of
`s` starts with `sub`. -/
def strContains (s sub : String) : Bool :=
  (List.range (s.data.length + 1)).any fun i => sub.data.isPrefixOf (s.data.drop i)

/-- The four event kinds after which `SSEClient.events` returns
(sse_client.py line 75: `event_type in ("completed", "failed",
"cancelled", "tool_request")`). -/
def isTerminal (t : String) : Bool :=
  t == "completed" || t == "failed" || t == "cancelled" || t == "tool_request"

/-- Classification of one wire line, mirroring the `if`/`elif` chain of the
Python loop body in order: comment, blank, `event:`, `data:`, anything else
(ignored). -/
inductive LineKind where
  | comment : LineKind
  | blank : LineKind
  | event (t : String) : LineKind
  | data (s : String) : LineKind
  | other : LineKind
deriving DecidableEq

/-- Embeds the line dispatch of sse_client.py lines 60-85:
`line.startswith(":")`, `line == ""`, `line.startswith("event:")` with
`line[6:].strip()`, `line.startswith("data:")` with `line[5:].strip()`. -/
def classifyLine (line : String) : LineKind :=
  if strStartsWith line ":" then .comment
  else if line = "" then .blank
  else if strStartsWith line "event:" then .event (pyStrip (strDrop line 6))
  else if strStartsWith line "data:" then .data (pyStrip (strDrop line 5))
  else .other

/-- The record-assembly loop of `SSEClient.events` over classified lines.
State: `et` is the pending `event_type` (`none` = Python `None`), `buf` the
accumulated `data_buffer`.  On a blank line with a truthy event type and a
truthy buffer the record is dispatched: a decodable payload is yielded,
an undecodable one is skipped (`except json.JSONDecodeError: pass`), and in
either case a terminal event type ends the generator (`return`). -/
def eventsAux {J : Type} (decode : String → Option J) :
    Option String → String → List LineKind → List (String × J)
  | _, _, [] => []
  | et, buf, .comment :: ls => eventsAux decode et buf ls
  | _, buf, .event t :: ls => eventsAux decode (some t) buf ls
  | et, buf, .data s :: ls => eventsAux decode et (buf ++ s) ls
  | et, buf, .other :: ls => eventsAux decode et buf ls
  | et, buf, .blank :: ls =>
    match et with
    | none => eventsAux decode none "" ls
    | some t =>
      if t = "" ∨ buf = "" then eventsAux decode none "" ls
      else
        match decode buf with
        | some d =>
          if isTerminal t then [(t, d)]
          else (t, d) :: eventsAux decode none "" ls
        | none =>
          if isTerminal t then []
          else eventsAux decode none "" ls

/-- `SSEClient.events`: the full parser from raw lines (the body of the
`for line in response.iter_lines()` loop, sse_client.py lines 56-85). -/
def SSEClient.events {J : Type} (decode : String → Option J)
    (lines : List String) : List (String × J) :=
  eventsAux decode none "" (lines.map classifyLine)

/-- Every position that has a successor holds a non-terminal event: only
the last element of the list may be terminal. -/
def noEarlyTerminal {J : Type} (l : List (String × J)) : Prop :=
  ∀ i : ℕ, ∀ h : i + 1 < l.length,
    isTerminal (l.get ⟨i, Nat.lt_of_succ_lt h⟩).1 = false

/-! ## Transport close (sse_client.py lines 89-96) and bridge close
(stream.py lines 85-91)

`SSEClient.close` closes the stored `httpx.Response` if there is one and
clears the slot; `StreamHandler.close` sets the `_closed` cancellation
flag and closes the inner SSE client if one is active.  Each close
operation returns the new state together with a `Bool` recording whether
an underlying connection close was actually performed. -/

/-- The `SSEClient` fields relevant to `close`: `_response` holds the
active connection when present. -/
structure SSEClientState where
  response : Option Unit
deriving DecidableEq

/-- `SSEClient.close`: close `_response` when set, then clear it;
otherwise do nothing. -/
def SSEClient.close (s : SSEClientState) : SSEClientState × Bool :=
  match s.response with
  | some _ => (⟨none⟩, true)
  | none => (s, false)

/-- The `StreamHandler` fields relevant to `close`: the `_closed`
cancellation flag and the optional inner `SSEClient`. -/
structure StreamHandlerState where
  closed : Bool
  sseClient : Option SSEClientState
deriving DecidableEq

/-- `StreamHandler.close`: set `_closed = True`; if an SSE client is
active, close it and drop the reference. -/
def StreamHandler.close (s : StreamHandlerState) : StreamHandlerState × Bool :=
  match s.sseClient with
  | some c => (⟨true, none⟩, (SSEClient.close c).2)
  | none => ({ s with closed := true }, false)

/-! ## Tool executor (tui/handlers/tools.py)

`ToolExecutor` looks a tool name up in its registry, runs the tool, and
submits a `ToolResult` to the server.  The embedding threads an explicit
`Effects` log recording executor invocations (`execCalls`), every
`submit_tool_result` attempt (`submitAttempts`), the attempts that
succeeded (`submitted`), and the status messages passed to the
`on_message` callback (`messages`).  The backend collaborators are
parameters of `ToolCtx`: `execTool` is `tool.execute` (its `.exc` outcome
models a raised exception) and `submitOutcome` is
`client.submit_tool_result` (`some msg` models a raised exception with
message `msg`). -/

/-- Tool arguments: a JSON object, modelled as an association list. -/
abbrev Args := List (String × String)

/-- A `tool_request` payload: `name`, `arguments`, `call_id`, each of the
string fields possibly missing (`dict.get` returns `None`). -/
structure ToolReq where
  name : Option String
  arguments : Args
  callId : Option String
deriving DecidableEq

/-- Outcome of `tool.execute(args)`: a `(success, output, error)` triple,
or a raised exception with the given message. -/
inductive ExecOutcome where
  | ret (success : Bool) (output : Option String) (error : Option String)
  | exc (msg : String)
deriving DecidableEq

/-- Arguments of one `client.submit_tool_result` call (the conversation id
is fixed per session and omitted). -/
structure SubmittedResult where
  callId : String
  success : Bool
  output : Option String
  error : Option String
deriving DecidableEq

/-- Observable effect log of the tool-handling code. -/
structure Effects where
  execCalls : List (String × Args) := []
  submitAttempts : List SubmittedResult := []
  submitted : List SubmittedResult := []
  messages : List String := []
deriving DecidableEq

/-- External collaborators of the tool executor: the registry (list of
registered tool names), the tool implementations, and the result
submitter. -/
structure ToolCtx where
  tools : List String
  execTool : String → Args → ExecOutcome
  submitOutcome : SubmittedResult → Option String

/-- Python truthiness of an optional string: `None` and `""` are falsy. -/
def truthyOpt (o : Option String) : Bool :=
  match o with
  | some s => !(s == "")
  | none => false

/-- The 200-character output preview shown by the TUI executor:
`output[:200] + ("..." if len(output) > 200 else "")`. -/
def previewOf (o : String) : String :=
  strTake o 200 ++ (if 200 < strLen o then "..." else "")

/-- `[Tool failed: {error}] if not success and error else error`
(tools.py line 72 and cli.py line 1144). -/
def formatToolError (success : Bool) (error : Option String) : Option String :=
  if success = false ∧ truthyOpt error = true then
    some ("[Tool failed: " ++ error.getD "" ++ "]")
  else error

/-- `ToolExecutor._submit_result` (tools.py lines 89-111): attempt the
RPC; a raised exception is swallowed and reported through the message
callback. -/
def ToolExecutor.submitResult (ctx : ToolCtx) (eff : Effects) (callId : String)
    (success : Bool) (output error : Option String) : Effects :=
  let r : SubmittedResult := ⟨callId, success, output, error⟩
  match ctx.submitOutcome r with
  | none =>
    { eff with submitAttempts := eff.submitAttempts ++ [r],
               submitted := eff.submitted ++ [r] }
  | some m =>
    { eff with submitAttempts := eff.submitAttempts ++ [r],
               messages := eff.messages ++
                 ["[red]Failed to submit tool result: " ++ m ++ "[/red]"] }

/-- `ToolExecutor.execute` (tools.py lines 36-81): falsy `name` or
`call_id` fails fast; an unregistered name submits a failing result
without invoking any tool; otherwise the tool runs and its result (or
exception) is submitted.  Returns the Python `(success, output_preview)`
pair together with the updated effect log. -/
def ToolExecutor.execute (ctx : ToolCtx) (eff : Effects) (req : ToolReq) :
    (Bool × Option String) × Effects :=
  match req.name, req.callId with
  | some toolName, some callId =>
    if toolName = "" ∨ callId = "" then ((false, none), eff)
    else
      let eff := { eff with messages := eff.messages ++
        ["[yellow]Executing tool:[/yellow] " ++ toolName] }
      if toolName ∈ ctx.tools then
        match ctx.execTool toolName req.arguments with
        | .ret success output error =>
          let eff := { eff with execCalls := eff.execCalls ++ [(toolName, req.arguments)] }
          let eff :=
            if truthyOpt output then
              { eff with messages := eff.messages ++
                ["[dim]Output: " ++ previewOf (output.getD "") ++ "[/dim]"] }
            else eff
          let eff :=
            if truthyOpt error then
              { eff with messages := eff.messages ++
                ["[red]Error: " ++ strTake (error.getD "") 100 ++ "[/red]"] }
            else eff
          let eff := ToolExecutor.submitResult ctx eff callId success output
            (formatToolError success error)
          ((success, if truthyOpt output then some (strTake (output.getD "") 200) else none), eff)
        | .exc m =>
          let eff := { eff with execCalls := eff.execCalls ++ [(toolName, req.arguments)] }
          let eff := { eff with messages := eff.messages ++
            ["[red]Tool execution failed: " ++ m ++ "[/red]"] }
          let eff := ToolExecutor.submitResult ctx eff callId false none
            (some ("[Tool failed: " ++ m ++ "]"))
          ((false, none), eff)
      else
        let errorMsg := "Unknown tool: " ++ toolName
        let eff := { eff with messages := eff.messages ++ ["[red]" ++ errorMsg ++ "[/red]"] }
        let eff := ToolExecutor.submitResult ctx eff callId false none
          (some ("[Tool failed: " ++ errorMsg ++ "]"))
        ((false, none), eff)
  | _, _ => ((false, none), eff)

/-- `ToolExecutor.reject` (tools.py lines 83-87): when a `call_id` is
present, submit the refusal result; never touches any tool. -/
def ToolExecutor.reject (ctx : ToolCtx) (eff : Effects) (req : ToolReq) : Effects :=
  match req.callId with
  | some callId =>
    if callId = "" then eff
    else
      let eff := { eff with messages := eff.messages ++
        ["[yellow]Tool execution rejected.[/yellow]"] }
      ToolExecutor.submitResult ctx eff callId false none
        (some "[User refused tool execution]")
  | none => eff

/-! ## Tool approval handshake (tui/screens/chat.py lines 510-553) -/

/-- The three approval outcomes of the panel: approve once (`"yes"`),
approve all future (`"all"`), reject (`"no"`). -/
inductive Decision where
  | yes
  | all
  | no
deriving DecidableEq

/-- Result of one `_handle_tool_request` call: the returned `approved`
flag, the `auto_approve_tools` flag after the call, whether an approval
panel was shown, the decision the panel resolved to (`none` when the
auto-approve fast path skipped the prompt), and the effect log. -/
structure HandshakeOut where
  approved : Bool
  autoApprove : Bool
  prompted : Bool
  decision : Option Decision
  eff : Effects
deriving DecidableEq

/-- `ChatScreen._handle_tool_request`: with `auto_approve_tools` set the
tool executes immediately without prompting; otherwise the decision
source (`approvalOf`, the approval panel) resolves `yes`/`all`/`no`.
`all` sets the flag before executing and returning. -/
def ChatScreen.handleToolRequest (ctx : ToolCtx) (approvalOf : ToolReq → Decision)
    (autoApprove : Bool) (eff : Effects) (req : ToolReq) : HandshakeOut :=
  if autoApprove then
    let r := ToolExecutor.execute ctx eff req
    ⟨true, true, false, none, r.2⟩
  else
    match approvalOf req with
    | .yes =>
      let r := ToolExecutor.execute ctx eff req
      ⟨true, false, true, some .yes, r.2⟩
    | .all =>
      let r := ToolExecutor.execute ctx eff req
      ⟨true, true, true, some .all, r.2⟩
    | .no =>
      ⟨false, false, true, some .no, ToolExecutor.reject ctx eff req⟩

/-- A session-long sequence of tool handshakes, threading the
`auto_approve_tools` flag and the effect log exactly as successive
`_handle_tool_request` calls do. -/
def runHandshakes (ctx : ToolCtx) (approvalOf : ToolReq → Decision) :
    Bool → Effects → List ToolReq → List HandshakeOut
  | _, _, [] => []
  | auto, eff, r :: rs =>
    let out := ChatScreen.handleToolRequest ctx approvalOf auto eff r
    out :: runHandshakes ctx approvalOf out.autoApprove out.eff rs

/-! ## Phase tracking and reconnection controller
(tui/screens/chat.py `_handle_response`, lines 329-506)

The streaming loop classifies bridged events into thinking/content
phases, handles tool requests, and reconnects after every `tool_request`
(the server closes the SSE connection after emitting one).  Typed
`Event` values stand for the `(event_type, data)` pairs with the
`data.get(...)` defaults already applied.  The controller consumes a list
of connections: the `i`-th element is the event sequence the `i`-th
bridge (`StreamHandler`) yields before its generator ends. -/

/-- `data.get("type", "content")` of a `text_chunk`. -/
inductive ChunkKind where
  | thinking
  | content
deriving DecidableEq

/-- Conversation events as consumed by `ChatScreen._handle_response`. -/
inductive Event where
  | connected
  | textChunk (kind : ChunkKind) (chunk : String)
  | statusChanged (status : String)
  | toolExecuting (name callId : String)
  | toolCompleted (callId name : String) (success : Bool) (content : String)
  | toolRequest (req : Option ToolReq)
  | completed
  | failed (error : String)
  | cancelled
  | streamError (msg : String)
deriving DecidableEq

/-- A `ToolStatusWidget` tracked in the `tool_widgets` map: its name and,
once `tool_completed` arrives, the `(success, content)` result. -/
structure ToolWidget where
  name : String
  result : Option (Bool × String)
deriving DecidableEq

/-- The state threaded through `_handle_response`: the phase-tracking
locals (`current_phase`, `thinking_text`, the live thinking widget's
displayed text, the live content widget's accumulated markdown), the
finalized phase texts in order, the `tool_widgets` map, the status bar,
mounted error messages, the app-level `auto_approve_tools` flag, the
`done` flag of the reconnection loop, the number of bridges opened, and
the tool-executor effect log. -/
structure CtrlState where
  currentPhase : Option ChunkKind := none
  thinkingText : String := ""
  thinkingWidget : Option String := none
  contentWidget : Option String := none
  finalizedThinking : List String := []
  finalizedContent : List String := []
  toolWidgets : List (String × ToolWidget) := []
  statusBar : String := "Thinking..."
  errorMessages : List String := []
  autoApprove : Bool := false
  done : Bool := false
  bridges : Nat := 0
  eff : Effects := {}
deriving DecidableEq

/-- `_finish_content_phase`: stop the markdown stream and freeze the
content widget, recording its final text. -/
def finishContentPhase (s : CtrlState) : CtrlState :=
  match s.contentWidget with
  | some c => { s with finalizedContent := s.finalizedContent ++ [c], contentWidget := none }
  | none => s

/-- `_finish_thinking_phase`: finalize the thinking widget (capturing its
displayed text) and reset `thinking_text`. -/
def finishThinkingPhase (s : CtrlState) : CtrlState :=
  match s.thinkingWidget with
  | some w =>
    { s with finalizedThinking := s.finalizedThinking ++ [w],
             thinkingWidget := none, thinkingText := "" }
  | none => { s with thinkingText := "" }

/-- `_start_content_phase`: finish both open phases, then mount a fresh
streaming content widget. -/
def startContentPhase (s : CtrlState) : CtrlState :=
  let s := finishContentPhase (finishThinkingPhase s)
  { s with currentPhase := some .content, contentWidget := some "" }

/-- `_start_thinking_phase`: finish an open thinking phase (content may
precede thinking and is not closed here), then mount a fresh thinking
widget. -/
def startThinkingPhase (s : CtrlState) : CtrlState :=
  let s := finishThinkingPhase s
  { s with currentPhase := some .thinking, thinkingText := "", thinkingWidget := some "" }

/-- `status.replace("_", " ")`. -/
def pyReplaceUnderscore (s : String) : String :=
  ⟨s.data.map fun c => if c = Char.ofNat 95 then Char.ofNat 32 else c⟩

/-- Helper for `pyTitle`: the `Bool` records whether the previous
character was alphabetic. -/
def pyTitleAux : Bool → List Char → List Char
  | _, [] => []
  | prevAlpha, c :: cs =>
    if c.isAlpha then
      (if prevAlpha then c.toLower else c.toUpper) :: pyTitleAux true cs
    else
      c :: pyTitleAux false cs

/-- Python `str.title()` restricted to alphabetic word characters. -/
def pyTitle (s : String) : String :=
  ⟨pyTitleAux false s.data⟩

/-- `tool_widgets[call_id].complete(...)`: record the result on the
matching widget. -/
def updateToolWidget (l : List (String × ToolWidget)) (callId : String)
    (res : Bool × String) : List (String × ToolWidget) :=
  l.map fun p => if p.1 == callId then (p.1, { p.2 with result := some res }) else p

/-- One iteration of the `async for event_type, data in handler.stream()`
body: returns the new state and whether the loop `break`s.  `streamError`
is the `("error", ...)` item the bridge emits after an exception; the
chat loop has no branch for it, so it is ignored here and the following
end of the generator triggers the `for`/`else` (`done = True`) in
`processConn`. -/
def ChatScreen.handleEvent (ctx : ToolCtx) (approvalOf : ToolReq → Decision)
    (s : CtrlState) : Event → CtrlState × Bool
  | .textChunk .thinking chunk =>
    let s :=
      if s.currentPhase ≠ some ChunkKind.thinking then
        startThinkingPhase (finishContentPhase s)
      else s
    let s := { s with thinkingText := s.thinkingText ++ chunk }
    let s :=
      match s.thinkingWidget with
      | some _ => { s with thinkingWidget := some s.thinkingText }
      | none => s
    (s, false)
  | .textChunk .content chunk =>
    let s := if s.currentPhase ≠ some ChunkKind.content then startContentPhase s else s
    let s :=
      match s.contentWidget with
      | some c => { s with contentWidget := some (c ++ chunk) }
      | none => s
    (s, false)
  | .toolExecuting name callId =>
    let s := finishThinkingPhase (finishContentPhase s)
    let s := { s with currentPhase := none, statusBar := "Tool: " ++ name }
    let s :=
      if callId = "" then s
      else { s with toolWidgets := s.toolWidgets ++ [(callId, ⟨name, none⟩)] }
    (s, false)
  | .toolCompleted callId _name success content =>
    let s :=
      if (s.toolWidgets.any fun p => p.1 == callId) then
        { s with toolWidgets := updateToolWidget s.toolWidgets callId (success, content) }
      else s
    ({ s with statusBar := "Thinking..." }, false)
  | .toolRequest req? =>
    match req? with
    | some r =>
      let s := finishThinkingPhase (finishContentPhase s)
      let s := { s with currentPhase := none,
                        statusBar := "Tool: " ++ (r.name.getD "unknown") }
      let out := ChatScreen.handleToolRequest ctx approvalOf s.autoApprove s.eff r
      let s := { s with autoApprove := out.autoApprove, eff := out.eff,
                        statusBar := if out.approved then "Thinking..." else "Tool rejected" }
      (s, true)
    | none => (s, true)
  | .statusChanged status =>
    if status = "" then (s, false)
    else ({ s with statusBar := pyTitle (pyReplaceUnderscore status) }, false)
  | .completed =>
    let s := finishThinkingPhase s
    ({ s with done := true }, true)
  | .failed error =>
    let s := finishContentPhase (finishThinkingPhase s)
    ({ s with errorMessages := s.errorMessages ++ [error], done := true }, true)
  | .cancelled =>
    let s := finishThinkingPhase s
    ({ s with done := true }, true)
  | .connected => (s, false)
  | .streamError _ => (s, false)

/-- The inner `async for` loop over one bridge's events, including the
`for`/`else` branch: a stream that ends without a `break` sets
`done = True`. -/
def ChatScreen.processConn (ctx : ToolCtx) (approvalOf : ToolReq → Decision) :
    CtrlState → List Event → CtrlState
  | s, [] => { s with done := true }
  | s, e :: es =>
    let r := ChatScreen.handleEvent ctx approvalOf s e
    if r.2 then r.1 else ChatScreen.processConn ctx approvalOf r.1 es

/-- The cleanup after the reconnection loop (chat.py lines 502-506):
stop the markdown stream / freeze the content widget, then finalize any
open thinking phase. -/
def ChatScreen.finalCleanup (s : CtrlState) : CtrlState :=
  finishThinkingPhase (finishContentPhase s)

/-- The outer `while not done` reconnection loop: each iteration opens a
fresh bridge (counted in `bridges`) and processes its events; the loop
ends when a terminal event or an exhausted stream sets `done` (the input
list supplies the events of each successive connection and must cover
every bridge the run opens). -/
def ChatScreen.runController (ctx : ToolCtx) (approvalOf : ToolReq → Decision) :
    CtrlState → List (List Event) → CtrlState
  | s, [] => ChatScreen.finalCleanup s
  | s, conn :: rest =>
    let s := { s with bridges := s.bridges + 1 }
    let s := ChatScreen.processConn ctx approvalOf s conn
    if s.done then ChatScreen.finalCleanup s
    else ChatScreen.runController ctx approvalOf s rest

/-! ## CLI tool loop: `execute_tool_request` (cli/chinese_worker/cli.py
lines 1084-1166)

The plain CLI's variant of the handshake.  Console output is not
modelled; the observable effects are the same `Effects` log.  The
returned status is the first component of the Python
`(result, auto_approve, last_shown_message_index)` tuple (the message
index is threaded unchanged and omitted). -/

/-- The `result` component: `"error"` or `"continue"`. -/
inductive CliStatus where
  | err
  | cont
deriving DecidableEq

/-- Result of one `execute_tool_request` call. -/
structure CliOutcome where
  status : CliStatus
  autoApprove : Bool
  eff : Effects
deriving DecidableEq

/-- A single-quote character, for the CLI's
`Unknown tool <quoted name>` message. -/
def sq : String :=
  ⟨[Char.ofNat 39]⟩

/-- One `client.submit_tool_result` call in the CLI: the effect log plus
whether the call succeeded (`False` = the RPC raised). -/
def cliSubmit (ctx : ToolCtx) (eff : Effects) (callId : String) (success : Bool)
    (output error : Option String) : Effects × Bool :=
  let r : SubmittedResult := ⟨callId, success, output, error⟩
  match ctx.submitOutcome r with
  | none =>
    ({ eff with submitAttempts := eff.submitAttempts ++ [r],
                submitted := eff.submitted ++ [r] }, true)
  | some _ =>
    ({ eff with submitAttempts := eff.submitAttempts ++ [r] }, false)

/-- The `try` block of the known-tool branch (cli.py lines 1133-1155):
run the tool, submit its result; any exception — from the tool or from
the first submission — is caught and a `[Tool failed: ...]` result is
submitted instead, and if that second submission also raises the call
returns `"error"`. -/
def cliExecKnown (ctx : ToolCtx) (eff : Effects) (toolName callId : String)
    (args : Args) (autoApprove : Bool) : CliOutcome :=
  match ctx.execTool toolName args with
  | .ret success output error =>
    let eff := { eff with execCalls := eff.execCalls ++ [(toolName, args)] }
    let fe := formatToolError success error
    let r := cliSubmit ctx eff callId success output fe
    if r.2 then ⟨.cont, autoApprove, r.1⟩
    else
      let m := (ctx.submitOutcome ⟨callId, success, output, fe⟩).getD ""
      let r2 := cliSubmit ctx r.1 callId false none (some ("[Tool failed: " ++ m ++ "]"))
      if r2.2 then ⟨.cont, autoApprove, r2.1⟩ else ⟨.err, autoApprove, r2.1⟩
  | .exc m =>
    let eff := { eff with execCalls := eff.execCalls ++ [(toolName, args)] }
    let r := cliSubmit ctx eff callId false none (some ("[Tool failed: " ++ m ++ "]"))
    if r.2 then ⟨.cont, autoApprove, r.1⟩ else ⟨.err, autoApprove, r.1⟩

/-- `execute_tool_request` (cli.py lines 1084-1166): missing request or
falsy `name`/`call_id` returns `"error"` with no effects; a registered
tool goes through approval (`ask_tool_approval`, modelled by
`approvalOf`) unless `auto_approve` is set — `"no"` submits the refusal
result, `"all"` turns `auto_approve` on before executing; an unregistered
tool submits an `Unknown tool` failure without executing. -/
def Cli.executeToolRequest (ctx : ToolCtx) (approvalOf : String → Args → Decision)
    (autoApprove : Bool) (eff : Effects) (toolRequest : Option ToolReq) : CliOutcome :=
  match toolRequest with
  | none => ⟨.err, autoApprove, eff⟩
  | some req =>
    match req.name, req.callId with
    | some toolName, some callId =>
      if toolName = "" ∨ callId = "" then ⟨.err, autoApprove, eff⟩
      else if toolName ∈ ctx.tools then
        if autoApprove then cliExecKnown ctx eff toolName callId req.arguments autoApprove
        else
          match approvalOf toolName req.arguments with
          | .no =>
            let r := cliSubmit ctx eff callId false none
              (some "[User refused tool execution]")
            if r.2 then ⟨.cont, autoApprove, r.1⟩ else ⟨.err, autoApprove, r.1⟩
          | .all => cliExecKnown ctx eff toolName callId req.arguments true
          | .yes => cliExecKnown ctx eff toolName callId req.arguments autoApprove
      else
        let r := cliSubmit ctx eff callId false none
          (some ("[Tool failed: Unknown tool " ++ sq ++ toolName ++ sq ++ "]"))
        if r.2 then ⟨.cont, autoApprove, r.1⟩ else ⟨.err, autoApprove, r.1⟩
    | _, _ => ⟨.err, autoApprove, eff⟩

/-! ## Concrete fixtures used to instantiate the theorems -/

/-- A decoder that accepts every payload (payload contents are irrelevant
to the framing claims). -/
def allDecode : String → Option Unit :=
  fun _ => some ()

/-- A decoder for which exactly the payload `"ok"` is valid JSON. -/
def okDecode : String → Option Unit :=
  fun s => if s = "ok" then some () else none

/-- A terminal-typed record whose payload decodes. -/
def termLines : List String :=
  ["event:completed", "data:x", ""]

/-- A malformed terminal-typed record followed by a well-formed
non-terminal record. -/
def malformedThenGoodLines : List String :=
  ["event:completed", "data:bad", "", "event:text_chunk", "data:ok", ""]

/-- The trailing well-formed record of `malformedThenGoodLines` alone. -/
def goodTailLines : List String :=
  ["event:text_chunk", "data:ok", ""]

/-- A registry/executor/submitter in which no tool exists, every
execution fails blandly and every submission succeeds. -/
def quietCtx : ToolCtx :=
  ⟨[], fun _ _ => .ret false none none, fun _ => none⟩

/-- A context with one registered tool `"t"` that succeeds with output
`"ok"`, and a submitter that always raises `"boom"`. -/
def failSubmitCtx : ToolCtx :=
  ⟨["t"], fun _ _ => .ret true (some "ok") none, fun _ => some "boom"⟩

/-- A context with one registered tool `"bash"` that succeeds, and a
submitter that always succeeds. -/
def bashCtx : ToolCtx :=
  ⟨["bash"], fun _ _ => .ret true (some "out") none, fun _ => none⟩

/-- The event sequence of testable property 5 of the spec. -/
def c2Events : List Event :=
  [.connected, .textChunk .thinking "a", .textChunk .thinking "b",
   .textChunk .content "hi", .completed]

/-- A well-formed tool request for the registered tool `"t"`. -/
def reqT : ToolReq :=
  ⟨some "t", [], some "1"⟩

/-- A well-formed tool request for the registered tool `"bash"`. -/
def reqBash : ToolReq :=
  ⟨some "bash", [], some "1"⟩

/-- A tool request whose name `"x"` is absent from every fixture
registry. -/
def reqX : ToolReq :=
  ⟨some "x", [], some "1"⟩

/-- A tool request with no name field. -/
def reqNoName : ToolReq :=
  ⟨none, [], some "1"⟩

theorem noEarlyTerminal_nil {J : Type} : noEarlyTerminal ([] : List (String × J)) := by
  intro i h
  simp at h

theorem noEarlyTerminal_single {J : Type} (x : String × J) : noEarlyTerminal [x] := by
  intro i h
  simp at h

theorem noEarlyTerminal_cons {J : Type} {x : String × J} {l : List (String × J)}
    (hx : isTerminal x.1 = false) (hl : noEarlyTerminal l) :
    noEarlyTerminal (x :: l) := by
  intro i h
  match i with
  | 0 => exact hx
  | Nat.succ j =>
    have hj : j + 1 < l.length := by
      simpa [Nat.succ_lt_succ_iff] using h
    exact hl j hj

/-- Structural invariant of the parser: in the produced event list, any
event other than the last is non-terminal (a terminal event ends the
generator immediately after being yielded). -/
theorem eventsAux_noEarlyTerminal {J : Type} (decode : String → Option J) :
    ∀ (ls : List LineKind) (et : Option String) (buf : String),
      noEarlyTerminal (eventsAux decode et buf ls) := by
  intro ls
  induction ls with
  | nil => intro et buf; exact noEarlyTerminal_nil
  | cons l ls ih =>
    intro et buf
    match l with
    | .comment => simpa [eventsAux] using ih et buf
    | .event t => simpa [eventsAux] using ih (some t) buf
    | .data s => simpa [eventsAux] using ih et (buf ++ s)
    | .other => simpa [eventsAux] using ih et buf
    | .blank =>
      match et with
      | none => simpa [eventsAux] using ih none ""
      | some t =>
        by_cases hemp : t = "" ∨ buf = ""
        · simpa [eventsAux, hemp] using ih none ""
        · rcases hdec : decode buf with _ | d
          · by_cases hterm : isTerminal t
            · simp [eventsAux, hemp, hdec, hterm]
              exact noEarlyTerminal_nil
            · simpa [eventsAux, hemp, hdec, hterm] using ih none ""
          · by_cases hterm : isTerminal t
            · simp [eventsAux, hemp, hdec, hterm]
              exact noEarlyTerminal_single _
            · have hx : isTerminal t = false := by
                simpa using hterm
              simp [eventsAux, hemp, hdec, hterm]
              exact noEarlyTerminal_cons hx (ih none "")

theorem str_empty_append (p : String) : "" ++ p = p := by
  cases p
  rfl

theorem isTerminal_ne_empty {t : String} (ht : isTerminal t = true) : t ≠ "" := by
  intro h
  subst h
  simp [isTerminal] at ht

/-- C1: In the event sequence the SSE transport produces for one
connection, a yielded event of one of the four terminal kinds
(`completed`, `failed`, `cancelled`, `tool_request`) is always the last
event: the generator returns right after yielding it, so no further
events are produced by that connection (otherwise the finite sequence
ends at server EOF). -/
theorem sse_terminal_event_is_last {J : Type} (decode : String → Option J)
    (lines : List String) (i : ℕ) (hi : i < (SSEClient.events decode lines).length)
    (ht : isTerminal ((SSEClient.events decode lines).get ⟨i, hi⟩).1 = true) :
    i = (SSEClient.events decode lines).length - 1 := by
  by_contra hne
  have h1 : i + 1 < (SSEClient.events decode lines).length := by omega
  have h2 : isTerminal ((SSEClient.events decode lines).get ⟨i, hi⟩).1 = false :=
    eventsAux_noEarlyTerminal decode (lines.map classifyLine) none "" i h1
  rw [h2] at ht
  exact Bool.noConfusion ht

theorem sse_terminal_event_is_last_witness :
    0 < (SSEClient.events allDecode termLines).length ∧
    0 = (SSEClient.events allDecode termLines).length - 1 := by
  have h0 : 0 < (SSEClient.events allDecode termLines).length := by decide
  exact ⟨h0, sse_terminal_event_is_last allDecode termLines 0 h0 (by rfl)⟩

/-- C9: In the transport parser, a completed record of terminal event
type whose non-empty data buffer fails to decode ends the sequence
without yielding any event for that record; a terminal-typed record with
no `data:` line at all (empty buffer) yields nothing and does not end the
sequence — terminal detection requires a non-empty data buffer. -/
theorem sse_terminal_detection_needs_data {J : Type} (decode : String → Option J)
    (t p : String) (rest : List LineKind)
    (ht : isTerminal t = true) (hp : p ≠ "") (hd : decode p = none) :
    eventsAux decode none "" (.event t :: .data p :: .blank :: rest) = [] ∧
    eventsAux decode none "" (.event t :: .blank :: rest) =
      eventsAux decode none "" rest := by
  have htne : t ≠ "" := isTerminal_ne_empty ht
  constructor
  · simp [eventsAux, str_empty_append, htne, hp, hd, ht]
  · simp [eventsAux]

theorem sse_terminal_detection_needs_data_witness :
    eventsAux okDecode none ""
        [.event "completed", .data "bad", .blank, .event "text_chunk", .data "ok", .blank] =
      [] ∧
    eventsAux okDecode none "" [.event "completed", .blank, .event "text_chunk", .data "ok", .blank] =
      eventsAux okDecode none "" [.event "text_chunk", .data "ok", .blank] := by
  exact sse_terminal_detection_needs_data okDecode "completed" "bad"
    [.event "text_chunk", .data "ok", .blank] (by decide) (by decide) (by decide)

/-- C6 counterexample: a record of terminal type (`completed`) with an
undecodable payload is dropped, but the event sequence does NOT continue
with the subsequent records of the connection: the following well-formed
`text_chunk` record, which alone yields an event, is never yielded when
it follows the malformed terminal record. -/
theorem sse_malformed_terminal_stops_stream :
    SSEClient.events okDecode malformedThenGoodLines = [] ∧
    SSEClient.events okDecode goodTailLines = [("text_chunk", ())] := by
  exact ⟨by decide, by decide⟩

/-- C6 (amended): a framed record whose data payload is not valid JSON is
dropped (the Transport yields no event for it); if the record's event
type is non-terminal the sequence continues with the subsequent records
of the connection, but if it is terminal the sequence ends at that
record. -/
theorem sse_malformed_record_dropped {J : Type} (decode : String → Option J)
    (t p : String) (rest : List LineKind)
    (htne : t ≠ "") (hp : p ≠ "") (hd : decode p = none) :
    (isTerminal t = false →
      eventsAux decode none "" (.event t :: .data p :: .blank :: rest) =
        eventsAux decode none "" rest) ∧
    (isTerminal t = true →
      eventsAux decode none "" (.event t :: .data p :: .blank :: rest) = []) := by
  constructor
  · intro hterm
    simp [eventsAux, str_empty_append, htne, hp, hd, hterm]
  · intro hterm
    simp [eventsAux, str_empty_append, htne, hp, hd, hterm]

theorem sse_malformed_record_dropped_witness :
    eventsAux okDecode none ""
        [.event "status_changed", .data "bad", .blank, .event "text_chunk", .data "ok", .blank] =
      [("text_chunk", ())] := by
  have h := (sse_malformed_record_dropped okDecode "status_changed" "bad"
    [.event "text_chunk", .data "ok", .blank] (by decide) (by decide) (by decide)).1 (by decide)
  rw [h]
  decide

/-- C2: Running the controller on the single connection
`[Connected, TextChunk(Reasoning,"a"), TextChunk(Reasoning,"b"),
TextChunk(Content,"hi"), Completed]` finalizes exactly one Reasoning
phase, with final text `"ab"`, finalizes the Responding phase with final
text `"hi"`, and reaches the terminal state (`done`). -/
theorem phase_tracker_reasoning_then_content :
    (ChatScreen.runController quietCtx (fun _ => Decision.no) {} [c2Events]).finalizedThinking =
      ["ab"] ∧
    (ChatScreen.runController quietCtx (fun _ => Decision.no) {} [c2Events]).finalizedContent =
      ["hi"] ∧
    (ChatScreen.runController quietCtx (fun _ => Decision.no) {} [c2Events]).done = true := by
  exact ⟨by decide, by decide, by decide⟩

/-- C8: `close()` on the transport and on the bridge is idempotent and
safe at any time: a second `close` leaves the state unchanged and
performs no underlying connection close; closing the transport with no
active connection is a no-op; closing the bridge with no active SSE
client performs no connection close and only records the (idempotent)
cancellation flag. -/
theorem close_idempotent_and_safe :
    (∀ s : SSEClientState,
      SSEClient.close (SSEClient.close s).1 = ((SSEClient.close s).1, false)) ∧
    (∀ s : SSEClientState, s.response = none → SSEClient.close s = (s, false)) ∧
    (∀ h : StreamHandlerState,
      StreamHandler.close (StreamHandler.close h).1 = ((StreamHandler.close h).1, false)) ∧
    (∀ h : StreamHandlerState, h.sseClient = none →
      StreamHandler.close h = ({ h with closed := true }, false)) := by
  refine ⟨?_, ?_, ?_, ?_⟩
  · intro s
    cases hs : s.response <;> simp [SSEClient.close, hs]
  · intro s hs
    simp [SSEClient.close, hs]
  · intro h
    cases hs : h.sseClient <;> simp [StreamHandler.close, hs]
  · intro h hs
    simp [StreamHandler.close, hs]

theorem close_idempotent_and_safe_witness :
    SSEClient.close ⟨none⟩ = (⟨none⟩, false) ∧
    StreamHandler.close ⟨false, none⟩ = (⟨true, none⟩, false) := by
  refine ⟨close_idempotent_and_safe.2.1 ⟨none⟩ rfl, ?_⟩
  have h := close_idempotent_and_safe.2.2.2 ⟨false, none⟩ rfl
  simpa using h

theorem handleToolRequest_auto (ctx : ToolCtx) (f : ToolReq → Decision)
    (eff : Effects) (req : ToolReq) :
    (ChatScreen.handleToolRequest ctx f true eff req).prompted = false ∧
    (ChatScreen.handleToolRequest ctx f true eff req).approved = true ∧
    (ChatScreen.handleToolRequest ctx f true eff req).autoApprove = true := by
  simp [ChatScreen.handleToolRequest]

theorem handleToolRequest_all_sets_flag (ctx : ToolCtx) (f : ToolReq → Decision)
    (auto : Bool) (eff : Effects) (req : ToolReq)
    (h : (ChatScreen.handleToolRequest ctx f auto eff req).decision = some Decision.all) :
    (ChatScreen.handleToolRequest ctx f auto eff req).autoApprove = true := by
  cases auto with
  | true => simp [ChatScreen.handleToolRequest] at h
  | false =>
    cases hd : f req <;> simp [ChatScreen.handleToolRequest, hd] at h ⊢

theorem runHandshakes_auto_all (ctx : ToolCtx) (f : ToolReq → Decision) :
    ∀ (rs : List ToolReq) (auto : Bool) (eff : Effects) (out : HandshakeOut),
      auto = true → out ∈ runHandshakes ctx f auto eff rs →
      out.prompted = false ∧ out.approved = true := by
  intro rs
  induction rs with
  | nil => intro auto eff out _ hmem; simp [runHandshakes] at hmem
  | cons r rs ih =>
    intro auto eff out hauto hmem
    subst hauto
    rw [runHandshakes] at hmem
    rcases List.mem_cons.mp hmem with h | h
    · subst h
      have := handleToolRequest_auto ctx f eff r
      exact ⟨this.1, this.2.1⟩
    · exact ih (ChatScreen.handleToolRequest ctx f true eff r).autoApprove
        (ChatScreen.handleToolRequest ctx f true eff r).eff out
        (handleToolRequest_auto ctx f eff r).2.2 h

theorem runHandshakes_all_suppresses_aux (ctx : ToolCtx) (f : ToolReq → Decision) :
    ∀ (reqs : List ToolReq) (auto : Bool) (eff : Effects) (i : ℕ)
      (hi : i < (runHandshakes ctx f auto eff reqs).length),
      ((runHandshakes ctx f auto eff reqs).get ⟨i, hi⟩).decision = some Decision.all →
      ((runHandshakes ctx f auto eff reqs).get ⟨i, hi⟩).autoApprove = true ∧
      ∀ j (hj : j < (runHandshakes ctx f auto eff reqs).length), i < j →
        ((runHandshakes ctx f auto eff reqs).get ⟨j, hj⟩).prompted = false ∧
        ((runHandshakes ctx f auto eff reqs).get ⟨j, hj⟩).approved = true := by
  intro reqs
  induction reqs with
  | nil =>
    intro auto eff i hi
    simp [runHandshakes] at hi
  | cons r rs ih =>
    intro auto eff i hi hall
    match i, hi, hall with
    | 0, hi, hall =>
      have hall0 : (ChatScreen.handleToolRequest ctx f auto eff r).decision =
          some Decision.all := hall
      have hflag : (ChatScreen.handleToolRequest ctx f auto eff r).autoApprove = true :=
        handleToolRequest_all_sets_flag ctx f auto eff r hall0
      refine ⟨hflag, ?_⟩
      intro j hj hij
      match j, hj, hij with
      | Nat.succ j, hj, _ =>
        have hj2 : j < (runHandshakes ctx f
            (ChatScreen.handleToolRequest ctx f auto eff r).autoApprove
            (ChatScreen.handleToolRequest ctx f auto eff r).eff rs).length :=
          Nat.lt_of_succ_lt_succ hj
        exact runHandshakes_auto_all ctx f rs
          (ChatScreen.handleToolRequest ctx f auto eff r).autoApprove
          (ChatScreen.handleToolRequest ctx f auto eff r).eff _ hflag
          (List.get_mem _ j hj2)
    | Nat.succ i, hi, hall =>
      have hi2 : i < (runHandshakes ctx f
          (ChatScreen.handleToolRequest ctx f auto eff r).autoApprove
          (ChatScreen.handleToolRequest ctx f auto eff r).eff rs).length :=
        Nat.lt_of_succ_lt_succ hi
      have hall2 : ((runHandshakes ctx f
          (ChatScreen.handleToolRequest ctx f auto eff r).autoApprove
          (ChatScreen.handleToolRequest ctx f auto eff r).eff rs).get ⟨i, hi2⟩).decision =
          some Decision.all := hall
      have IH := ih (ChatScreen.handleToolRequest ctx f auto eff r).autoApprove
        (ChatScreen.handleToolRequest ctx f auto eff r).eff i hi2 hall2
      refine ⟨IH.1, ?_⟩
      intro j hj hij
      match j, hj, hij with
      | Nat.succ j, hj, hij =>
        have hj2 : j < (runHandshakes ctx f
            (ChatScreen.handleToolRequest ctx f auto eff r).autoApprove
            (ChatScreen.handleToolRequest ctx f auto eff r).eff rs).length :=
          Nat.lt_of_succ_lt_succ hj
        exact IH.2 j hj2 (Nat.lt_of_succ_lt_succ hij)

/-- C3: In a session's sequence of tool handshakes (initial
`auto_approve_tools = false`), once a handshake resolves to
ApproveAllFuture (`"all"`), the flag is already `true` when that
handshake returns, and every later handshake in the session resolves to
Approve immediately — it executes the tool without showing an approval
prompt, so zero further prompts occur. -/
theorem approve_all_future_suppresses_prompts (ctx : ToolCtx)
    (f : ToolReq → Decision) (reqs : List ToolReq) (eff : Effects) (i : ℕ)
    (hi : i < (runHandshakes ctx f false eff reqs).length)
    (hall : ((runHandshakes ctx f false eff reqs).get ⟨i, hi⟩).decision = some Decision.all) :
    ((runHandshakes ctx f false eff reqs).get ⟨i, hi⟩).autoApprove = true ∧
    ∀ j (hj : j < (runHandshakes ctx f false eff reqs).length), i < j →
      ((runHandshakes ctx f false eff reqs).get ⟨j, hj⟩).prompted = false ∧
      ((runHandshakes ctx f false eff reqs).get ⟨j, hj⟩).approved = true :=
  runHandshakes_all_suppresses_aux ctx f reqs false eff i hi hall

theorem approve_all_future_suppresses_prompts_witness :
    ((runHandshakes quietCtx (fun _ => Decision.all) false {} [reqX, reqX]).get
      ⟨1, by decide⟩).prompted = false := by
  have h0 : 0 < (runHandshakes quietCtx (fun _ => Decision.all) false {} [reqX, reqX]).length := by
    decide
  have h1 : 1 < (runHandshakes quietCtx (fun _ => Decision.all) false {} [reqX, reqX]).length := by
    decide
  exact ((approve_all_future_suppresses_prompts quietCtx (fun _ => Decision.all)
    [reqX, reqX] {} 0 h0 (by rfl)).2 1 h1 (by omega)).1

theorem submitResult_attempts (ctx : ToolCtx) (e : Effects) (cid : String)
    (su : Bool) (o err : Option String) :
    (ToolExecutor.submitResult ctx e cid su o err).submitAttempts =
      e.submitAttempts ++ [⟨cid, su, o, err⟩] ∧
    (ToolExecutor.submitResult ctx e cid su o err).execCalls = e.execCalls := by
  cases h : ctx.submitOutcome ⟨cid, su, o, err⟩ <;>
    simp [ToolExecutor.submitResult, h]

theorem cliSubmit_attempts (ctx : ToolCtx) (e : Effects) (cid : String)
    (su : Bool) (o err : Option String) :
    (cliSubmit ctx e cid su o err).1.submitAttempts =
      e.submitAttempts ++ [⟨cid, su, o, err⟩] ∧
    (cliSubmit ctx e cid su o err).1.execCalls = e.execCalls := by
  cases h : ctx.submitOutcome ⟨cid, su, o, err⟩ <;>
    simp [cliSubmit, h]

/-- C4 counterexample: at a concrete rejected handshake exactly one
result is submitted and its error string is `"[User refused tool
execution]"` — which is not the claimed `"user refused tool execution"`
and does not even contain that phrase (the code capitalizes `User` and
brackets the message). -/
theorem reject_error_string_differs :
    (ChatScreen.handleToolRequest bashCtx (fun _ => Decision.no) false {} reqBash).eff.submitAttempts =
      [⟨"1", false, none, some "[User refused tool execution]"⟩] ∧
    strContains "[User refused tool execution]" "user refused tool execution" = false := by
  exact ⟨by decide, by decide⟩

/-- C4 (amended): every tool handshake that resolves to Reject submits
exactly one ToolResult for the request's call id, with `success = false`,
no output, and the refusal error string `"[User refused tool
execution]"`, and the Executor is never invoked for that call — in the
TUI handshake (decision `no`, flag unset) and in the CLI loop
(registered tool, approval `no`). -/
theorem reject_submits_refusal (ctx : ToolCtx) (f : ToolReq → Decision)
    (req : ToolReq) (cid : String)
    (hcid : req.callId = some cid) (hc : cid ≠ "") (hno : f req = Decision.no)
    (g : String → Args → Decision) (nm : String) (args : Args)
    (hg : g nm args = Decision.no) (hnm : nm ≠ "") (hmem : nm ∈ ctx.tools) :
    ((ChatScreen.handleToolRequest ctx f false {} req).eff.submitAttempts =
      [⟨cid, false, none, some "[User refused tool execution]"⟩] ∧
     (ChatScreen.handleToolRequest ctx f false {} req).eff.execCalls = []) ∧
    ((Cli.executeToolRequest ctx g false {} (some ⟨some nm, args, some cid⟩)).eff.submitAttempts =
      [⟨cid, false, none, some "[User refused tool execution]"⟩] ∧
     (Cli.executeToolRequest ctx g false {} (some ⟨some nm, args, some cid⟩)).eff.execCalls = []) := by
  constructor
  · have h := submitResult_attempts ctx
      { messages := ["[yellow]Tool execution rejected.[/yellow]"] } cid false none
      (some "[User refused tool execution]")
    simp [ChatScreen.handleToolRequest, hno, ToolExecutor.reject, hcid, hc] at h ⊢
    exact h
  · have h := cliSubmit_attempts ctx {} cid false none
      (some "[User refused tool execution]")
    cases hsub : ctx.submitOutcome ⟨cid, false, none, some "[User refused tool execution]"⟩ <;>
      simp [Cli.executeToolRequest, hnm, hc, hmem, hg, cliSubmit, hsub]

theorem reject_submits_refusal_witness :
    (ChatScreen.handleToolRequest bashCtx (fun _ => Decision.no) false {} reqBash).eff.submitAttempts =
      [⟨"1", false, none, some "[User refused tool execution]"⟩] := by
  exact ((reject_submits_refusal bashCtx (fun _ => Decision.no) reqBash "1" rfl
    (by decide) rfl (fun _ _ => Decision.no) "bash" [] rfl (by decide) (by decide)).1).1

theorem str_data_append (a b : String) : (a ++ b).data = a.data ++ b.data := by
  cases a
  cases b
  rfl

theorem str_append_assoc (a b c : String) : (a ++ b) ++ c = a ++ (b ++ c) := by
  cases a with
  | mk x =>
    cases b with
    | mk y =>
      cases c with
      | mk z =>
        show String.mk ((x ++ y) ++ z) = String.mk (x ++ (y ++ z))
        exact congrArg String.mk (List.append_assoc x y z)

theorem strContains_intro (s sub : String) (i : ℕ) (hi : i ≤ s.data.length)
    (h : sub.data.isPrefixOf (s.data.drop i) = true) : strContains s sub = true := by
  unfold strContains
  rw [List.any_eq_true]
  exact ⟨i, List.mem_range.mpr (by omega), h⟩

theorem strContains_append_prefix (a m sub : String)
    (h : sub.data.isPrefixOf m.data = true) : strContains (a ++ m) sub = true := by
  apply strContains_intro _ _ a.data.length
  · rw [str_data_append, List.length_append]
    omega
  · rw [str_data_append, List.drop_left]
    exact h

theorem isPrefixOf_append {l₁ l₂ l₃ : List Char}
    (h : l₁.isPrefixOf l₂ = true) : l₁.isPrefixOf (l₂ ++ l₃) = true := by
  simp only [List.isPrefixOf_iff_prefix] at h ⊢
  exact h.trans (List.prefix_append l₂ l₃)

theorem unknown_msg_contains (nm : String) :
    strContains ("[Tool failed: Unknown tool: " ++ nm ++ "]") "Unknown tool" = true := by
  have h1 : ("[Tool failed: Unknown tool: " : String) =
      "[Tool failed: " ++ "Unknown tool: " := by decide
  have hsplit : "[Tool failed: Unknown tool: " ++ nm ++ "]" =
      "[Tool failed: " ++ ("Unknown tool: " ++ nm ++ "]") := by
    rw [h1, str_append_assoc, str_append_assoc, str_append_assoc "Unknown tool: " nm]
  rw [hsplit]
  apply strContains_append_prefix
  rw [str_data_append, str_data_append]
  apply isPrefixOf_append
  apply isPrefixOf_append
  decide

/-- C5 counterexample: for the approved request of the unregistered tool
`"x"`, the submitted error string is `"[Tool failed: Unknown tool: x]"`,
which does not contain the claimed phrase `"unknown tool"` (the code
capitalizes `Unknown`), and the executor return value is the pair
`(False, None)`, not a `(success, output, error)` triple. -/
theorem unknown_tool_error_string_differs :
    (ToolExecutor.execute quietCtx {} reqX).2.submitAttempts =
      [⟨"1", false, none, some "[Tool failed: Unknown tool: x]"⟩] ∧
    strContains "[Tool failed: Unknown tool: x]" "unknown tool" = false := by
  exact ⟨by decide, by decide⟩

/-- C5 (amended): an approved tool request whose name is absent from the
Registry makes the executor return failure `(false, none)` without
attempting execution; the submitted ToolResult has `success = false` and
error `"[Tool failed: Unknown tool: <name>]"` (containing
`"Unknown tool"`), with no Executor call recorded — and the CLI loop
likewise submits `"[Tool failed: Unknown tool '<name>']"` with no
Executor call. -/
theorem unknown_tool_failure (ctx : ToolCtx) (req : ToolReq) (nm cid : String)
    (hn : req.name = some nm) (hc : req.callId = some cid)
    (hnm : nm ≠ "") (hcne : cid ≠ "") (hmem : nm ∉ ctx.tools)
    (g : String → Args → Decision) (args : Args) (auto : Bool) :
    (ToolExecutor.execute ctx {} req).1 = (false, none) ∧
    (ToolExecutor.execute ctx {} req).2.submitAttempts =
      [⟨cid, false, none, some ("[Tool failed: Unknown tool: " ++ nm ++ "]")⟩] ∧
    (ToolExecutor.execute ctx {} req).2.execCalls = [] ∧
    strContains ("[Tool failed: Unknown tool: " ++ nm ++ "]") "Unknown tool" = true ∧
    (Cli.executeToolRequest ctx g auto {} (some ⟨some nm, args, some cid⟩)).eff.submitAttempts =
      [⟨cid, false, none, some ("[Tool failed: Unknown tool " ++ sq ++ nm ++ sq ++ "]")⟩] ∧
    (Cli.executeToolRequest ctx g auto {} (some ⟨some nm, args, some cid⟩)).eff.execCalls = [] := by
  have htui := submitResult_attempts ctx
    { messages := ["[yellow]Executing tool:[/yellow] " ++ nm,
                   "[red]Unknown tool: " ++ nm ++ "[/red]"] } cid false none
    (some ("[Tool failed: Unknown tool: " ++ nm ++ "]"))
  have hcli := cliSubmit_attempts ctx {} cid false none
    (some ("[Tool failed: Unknown tool " ++ sq ++ nm ++ sq ++ "]"))
  refine ⟨?_, ?_, ?_, unknown_msg_contains nm, ?_, ?_⟩
  · simp [ToolExecutor.execute, hn, hc, hnm, hcne, hmem]
  · simp [ToolExecutor.execute, hn, hc, hnm, hcne, hmem]
    simp at htui
    exact htui.1
  · simp [ToolExecutor.execute, hn, hc, hnm, hcne, hmem]
    simp at htui
    exact htui.2
  · cases hsub : ctx.submitOutcome
        ⟨cid, false, none, some ("[Tool failed: Unknown tool " ++ sq ++ nm ++ sq ++ "]")⟩ <;>
      simp [Cli.executeToolRequest, hnm, hcne, hmem, cliSubmit, hsub]
  · cases hsub : ctx.submitOutcome
        ⟨cid, false, none, some ("[Tool failed: Unknown tool " ++ sq ++ nm ++ sq ++ "]")⟩ <;>
      simp [Cli.executeToolRequest, hnm, hcne, hmem, cliSubmit, hsub]

theorem unknown_tool_failure_witness :
    (ToolExecutor.execute quietCtx {} reqX).1 = (false, none) ∧
    strContains ("[Tool failed: Unknown tool: " ++ "x" ++ "]") "Unknown tool" = true := by
  have h := unknown_tool_failure quietCtx reqX "x" "1" rfl rfl (by decide) (by decide)
    (by decide) (fun _ _ => Decision.yes) [] false
  exact ⟨h.1, h.2.2.2.1⟩

/-- C10: a tool request missing the `name` field or the `call_id` field
makes the tool executor return failure immediately — `(False, None)` in
the TUI, `"error"` in the CLI — with no tool executed and no ToolResult
submitted at all (the effect log is unchanged). -/
theorem missing_fields_fail_fast (ctx : ToolCtx) (g : String → Args → Decision)
    (req : ToolReq) (eff : Effects) (auto : Bool)
    (h : req.name = none ∨ req.callId = none) :
    ToolExecutor.execute ctx eff req = ((false, none), eff) ∧
    Cli.executeToolRequest ctx g auto eff (some req) = ⟨.err, auto, eff⟩ := by
  rcases h with h | h
  · rcases hc : req.callId with _ | c <;>
      simp [ToolExecutor.execute, Cli.executeToolRequest, h, hc]
  · rcases hn : req.name with _ | n <;>
      simp [ToolExecutor.execute, Cli.executeToolRequest, h, hn]

theorem missing_fields_fail_fast_witness :
    ToolExecutor.execute quietCtx {} reqNoName = ((false, none), {}) ∧
    Cli.executeToolRequest quietCtx (fun _ _ => Decision.yes) false {} (some reqNoName) =
      ⟨.err, false, {}⟩ := by
  exact missing_fields_fail_fast quietCtx (fun _ _ => Decision.yes) reqNoName {} false
    (Or.inl rfl)

/-- C7 counterexample: with a submitter that always raises (`"boom"`),
the concrete run submits nothing successfully — there is no confirmed
submission — yet the Controller still opens a second Bridge: the claim
that it does not proceed to Streaming without a confirmed submission is
false on the code. -/
theorem submit_failure_still_reconnects :
    (ChatScreen.runController failSubmitCtx (fun _ => Decision.yes) {}
      [[.toolRequest (some reqT)], []]).bridges = 2 ∧
    (ChatScreen.runController failSubmitCtx (fun _ => Decision.yes) {}
      [[.toolRequest (some reqT)], []]).eff.submitted = [] := by
  exact ⟨by decide, by decide⟩

theorem execute_fail_submit (ctx : ToolCtx) (eff : Effects) (req : ToolReq)
    (nm cid m : String) (hn : req.name = some nm) (hc : req.callId = some cid)
    (hnm : nm ≠ "") (hcid : cid ≠ "")
    (hfail : ∀ r, ctx.submitOutcome r = some m) :
    (ToolExecutor.execute ctx eff req).2.submitted = eff.submitted ∧
    ("[red]Failed to submit tool result: " ++ m ++ "[/red]") ∈
      (ToolExecutor.execute ctx eff req).2.messages := by
  by_cases hmem : nm ∈ ctx.tools
  · rcases hex : ctx.execTool nm req.arguments with ⟨su, o, err⟩ | s
    · cases ho : truthyOpt o <;> cases he2 : truthyOpt err <;>
        simp [ToolExecutor.execute, hn, hc, hnm, hcid, hmem, hex, ho, he2,
              ToolExecutor.submitResult, hfail]
    · simp [ToolExecutor.execute, hn, hc, hnm, hcid, hmem, hex,
            ToolExecutor.submitResult, hfail]
  · simp [ToolExecutor.execute, hn, hc, hnm, hcid, hmem,
          ToolExecutor.submitResult, hfail]

theorem reject_fail_submit (ctx : ToolCtx) (eff : Effects) (req : ToolReq)
    (cid m : String) (hc : req.callId = some cid) (hcid : cid ≠ "")
    (hfail : ∀ r, ctx.submitOutcome r = some m) :
    (ToolExecutor.reject ctx eff req).submitted = eff.submitted ∧
    ("[red]Failed to submit tool result: " ++ m ++ "[/red]") ∈
      (ToolExecutor.reject ctx eff req).messages := by
  simp [ToolExecutor.reject, hc, hcid, ToolExecutor.submitResult, hfail]

theorem handshake_fail_submit (ctx : ToolCtx) (f : ToolReq → Decision) (auto : Bool)
    (eff : Effects) (req : ToolReq) (nm cid m : String)
    (hn : req.name = some nm) (hc : req.callId = some cid) (hnm : nm ≠ "") (hcid : cid ≠ "")
    (hfail : ∀ r, ctx.submitOutcome r = some m) :
    (ChatScreen.handleToolRequest ctx f auto eff req).eff.submitted = eff.submitted ∧
    ("[red]Failed to submit tool result: " ++ m ++ "[/red]") ∈
      (ChatScreen.handleToolRequest ctx f auto eff req).eff.messages := by
  cases auto with
  | true =>
    have h := execute_fail_submit ctx eff req nm cid m hn hc hnm hcid hfail
    simpa [ChatScreen.handleToolRequest] using h
  | false =>
    cases hd : f req with
    | yes =>
      have h := execute_fail_submit ctx eff req nm cid m hn hc hnm hcid hfail
      simpa [ChatScreen.handleToolRequest, hd] using h
    | all =>
      have h := execute_fail_submit ctx eff req nm cid m hn hc hnm hcid hfail
      simpa [ChatScreen.handleToolRequest, hd] using h
    | no =>
      have h := reject_fail_submit ctx eff req cid m hc hcid hfail
      simpa [ChatScreen.handleToolRequest, hd] using h

/-- C7 (amended): when submitting a ToolResult fails with a network/API
error, the failure is reported as an error message, but the Controller
nonetheless proceeds: after the tool interruption it opens a new Bridge
(reconnects) even though no submission was confirmed. -/
theorem submit_failure_reported_but_reconnects (ctx : ToolCtx) (f : ToolReq → Decision)
    (req : ToolReq) (nm cid m : String)
    (hn : req.name = some nm) (hnm : nm ≠ "") (hc : req.callId = some cid) (hcid : cid ≠ "")
    (hfail : ∀ r, ctx.submitOutcome r = some m) :
    ("[red]Failed to submit tool result: " ++ m ++ "[/red]") ∈
      (ChatScreen.runController ctx f {} [[.toolRequest (some req)], []]).eff.messages ∧
    (ChatScreen.runController ctx f {} [[.toolRequest (some req)], []]).eff.submitted = [] ∧
    (ChatScreen.runController ctx f {} [[.toolRequest (some req)], []]).bridges = 2 := by
  have h := handshake_fail_submit ctx f false {} req nm cid m hn hc hnm hcid hfail
  have key : (ChatScreen.runController ctx f {} [[.toolRequest (some req)], []]).eff =
      (ChatScreen.handleToolRequest ctx f false {} req).eff ∧
      (ChatScreen.runController ctx f {} [[.toolRequest (some req)], []]).bridges = 2 := by
    simp [ChatScreen.runController, ChatScreen.processConn, ChatScreen.handleEvent,
          ChatScreen.finalCleanup, finishContentPhase, finishThinkingPhase]
  refine ⟨?_, ?_, key.2⟩
  · rw [key.1]
    exact h.2
  · rw [key.1, h.1]

theorem submit_failure_reported_but_reconnects_witness :
    ("[red]Failed to submit tool result: " ++ "boom" ++ "[/red]") ∈
      (ChatScreen.runController failSubmitCtx (fun _ => Decision.yes) {}
        [[.toolRequest (some reqT)], []]).eff.messages := by
  exact (submit_failure_reported_but_reconnects failSubmitCtx (fun _ => Decision.yes) reqT
    "t" "1" "boom" rfl (by decide) rfl (by decide) (fun _ => rfl)).1

end ChineseWorker
